import Mathlib

/-!
Shallow embedding of the contact workflow of the repository
`RESTful-API-contact-managment-nest-js`: the Prisma `Contact` data model
(prisma/schema.prisma), the `ContactService` operations
(src/contact/contact.service.ts) and the `ContactController` wrappers
(src/contact/contact.controller.ts). The database is modelled as a list of
`Contact` rows plus the autoincrement counter for the `id` column; every
service operation is a pure function from the database state (and the
authenticated user plus the request) to a result, the successor state and
the list of mutating storage calls it issued.
-/

/-- The `User` model of prisma/schema.prisma: username is the primary key;
password, name and an optional token. -/
structure User where
  username : String
  password : String
  name : String
  token : Option String
deriving DecidableEq

/-- The `Contact` model of prisma/schema.prisma: autoincremented integer id,
required first_name, optional last_name/email/phone, and the owning user's
username as a foreign key. -/
structure Contact where
  id : Nat
  first_name : String
  last_name : Option String
  email : Option String
  phone : Option String
  username : String
deriving DecidableEq

/-- The `ContactResponse` DTO returned by `ContactService.toContactResponse`:
first_name, last_name, email, phone and id, with username dropped. -/
structure ContactResponse where
  first_name : String
  last_name : Option String
  email : Option String
  phone : Option String
  id : Nat
deriving DecidableEq

/-- The `HttpException(message, status)` value thrown by the service. -/
structure HttpException where
  message : String
  status : Nat
deriving DecidableEq

/-- An error surfaced by a contact operation: either an `HttpException`
thrown by the service itself, or a validation error raised by
`ValidationService.validate` (whose implementation is outside the contact
module; we keep it as a separate class so the two are distinguishable, as
they are at the HTTP boundary). -/
inductive ServiceError where
  | http (e : HttpException)
  | validationFailure (message : String)
deriving DecidableEq

deriving instance DecidableEq for Except

/-- The single `HttpException` constructed in contact.service.ts line 96:
`throw new HttpException('Contact is not found', 404)`. -/
def contactNotFound : ServiceError :=
  ServiceError.http ⟨"Contact is not found", 404⟩

/-- The `CreateContactRequest` payload: first_name required, last_name,
email and phone optional. The `username` field models a client-supplied
username in the raw JSON body; the schema does not declare it and the
service overwrites it from the authenticated identity (spec section 4.1:
"the client-supplied username, if any, is ignored/overwritten"). -/
structure CreateContactRequest where
  first_name : String
  last_name : Option String
  email : Option String
  phone : Option String
  username : Option String
deriving DecidableEq

/-- The `UpdateContactRequest` payload: id required, the four contact fields
optional; an omitted field is `none` and is skipped by the storage layer's
update (Prisma leaves columns whose data value is undefined untouched). -/
structure UpdateContactRequest where
  id : Nat
  first_name : Option String
  last_name : Option String
  email : Option String
  phone : Option String
deriving DecidableEq

/-- Database state for the `contacts` table: the rows plus the
autoincrement counter backing the `id` column. -/
structure Db where
  rows : List Contact
  nextId : Nat
deriving DecidableEq

/-- A mutating storage call issued by the workflow: `prisma.contact.create`,
`prisma.contact.update` keyed by (id, username), or `prisma.contact.delete`
keyed by (id, username). Reads (`findFirst`) are not mutating and are not
recorded. -/
inductive StorageWrite where
  | insertRow (c : Contact)
  | updateRow (id : Nat) (username : String) (data : UpdateContactRequest)
  | deleteRow (id : Nat) (username : String)
deriving DecidableEq

/-- Outcome of one service or controller operation: the returned value or
thrown error, the database state afterwards, and the mutating storage calls
performed. -/
structure OpResult (α : Type) where
  result : Except ServiceError α
  db : Db
  writes : List StorageWrite

/-- The `WebResponse` wrapper the controller returns: `{ data: ... }`. -/
structure WebResponse (α : Type) where
  data : α
deriving DecidableEq

/-- Modelled from the spec: the email format check of the Zod schema in
src/contact/contact.validation.ts, which is not among the given source
files; spec section 4.1 says email is "format-checked if present". Any
fixed decidable predicate serves; none of the verified claims depends on
its exact shape. -/
def emailFormatOk (s : String) : Bool :=
  s.data.contains '@'

/-- Modelled from the spec: the per-field string constraint of the schemas
in src/contact/contact.validation.ts ("string length" constraints, fields
"≤100 chars", required fields non-empty). -/
def fieldLenOk (s : String) : Bool :=
  1 ≤ s.length && s.length ≤ 100

/-- Modelled from the spec: constraint on an optional plain field —
unconstrained when omitted, length-bounded when present. -/
def optFieldOk (s : Option String) : Bool :=
  match s with
  | none => true
  | some v => fieldLenOk v

/-- Modelled from the spec: constraint on the optional email field —
length-bounded and format-checked when present. -/
def optEmailOk (s : Option String) : Bool :=
  match s with
  | none => true
  | some v => fieldLenOk v && emailFormatOk v

/-- Modelled from the spec: `ContactValidation.CREATE`
(src/contact/contact.validation.ts is not among the given source files).
Spec section 4.1: first_name required ≤100 chars, optional
last_name/email/phone ≤100 chars each, email format-checked if present. -/
def createRequestValid (r : CreateContactRequest) : Bool :=
  fieldLenOk r.first_name && optFieldOk r.last_name &&
    optEmailOk r.email && optFieldOk r.phone

/-- Modelled from the spec: `ContactValidation.UPDATE` — id required, the
other fields "optional but constrained" (spec section 4.1). -/
def updateRequestValid (r : UpdateContactRequest) : Bool :=
  optFieldOk r.first_name && optFieldOk r.last_name &&
    optEmailOk r.email && optFieldOk r.phone

/-- Modelled from the spec: `ValidationService.validate` applied to the
CREATE schema — returns the normalized payload (the same validated values)
or raises a validation error (spec section 2: "given a schema and an
untyped payload, returns a normalized object or raises a validation
error"). -/
def validateCreate (r : CreateContactRequest) : Except ServiceError CreateContactRequest :=
  if createRequestValid r then Except.ok r
  else Except.error (ServiceError.validationFailure "Validation failed")

/-- Modelled from the spec: `ValidationService.validate` applied to the
UPDATE schema. -/
def validateUpdate (r : UpdateContactRequest) : Except ServiceError UpdateContactRequest :=
  if updateRequestValid r then Except.ok r
  else Except.error (ServiceError.validationFailure "Validation failed")

/-- The row predicate of the `findFirst` where-clause in
`ContactService.checkContactMustExists`: username and id must both match. -/
def ownedBy (username : String) (contactId : Nat) (c : Contact) : Bool :=
  c.username == username && c.id == contactId

/-- `ContactService.checkContactMustExists(username, contactId)`
(contact.service.ts lines 82-100): `findFirst` on the contacts table with
`where: { username, id }`; throws `HttpException('Contact is not found',
404)` when no row matches, returns the row otherwise. -/
def ContactService.checkContactMustExists (db : Db) (username : String) (contactId : Nat) :
    Except ServiceError Contact :=
  match db.rows.find? (ownedBy username contactId) with
  | some contact => Except.ok contact
  | none => Except.error contactNotFound

/-- `ContactService.toContactResponse(contact)` (contact.service.ts lines
64-72): projects the entity to the DTO, dropping username. -/
def ContactService.toContactResponse (contact : Contact) : ContactResponse :=
  { first_name := contact.first_name
    last_name := contact.last_name
    email := contact.email
    phone := contact.phone
    id := contact.id }

/-- The row object passed to `prisma.contact.create` (contact.service.ts
lines 47-52): the validated request fields spread first, then
`username: user.username` spread last, so the stored username is always
the authenticated user's; the id column is filled by the autoincrement
counter. -/
def newContactRow (db : Db) (user : User) (r : CreateContactRequest) : Contact :=
  { id := db.nextId
    first_name := r.first_name
    last_name := r.last_name
    email := r.email
    phone := r.phone
    username := user.username }

/-- `ContactService.create(user, request)` (contact.service.ts lines
32-56): validates the request, then `prisma.contact.create` with the row
object `newContactRow`, and returns `toContactResponse` of the new row. -/
def ContactService.create (db : Db) (user : User) (request : CreateContactRequest) :
    OpResult ContactResponse :=
  match validateCreate request with
  | Except.error e => ⟨Except.error e, db, []⟩
  | Except.ok createRequest =>
    let contact : Contact := newContactRow db user createRequest
    ⟨Except.ok (ContactService.toContactResponse contact),
      ⟨db.rows ++ [contact], db.nextId + 1⟩,
      [StorageWrite.insertRow contact]⟩

/-- `ContactService.get(user, contactId)` (contact.service.ts lines
109-115): `checkContactMustExists` with the caller's username, then
`toContactResponse`. Read-only. -/
def ContactService.get (db : Db) (user : User) (contactId : Nat) :
    OpResult ContactResponse :=
  match ContactService.checkContactMustExists db user.username contactId with
  | Except.error e => ⟨Except.error e, db, []⟩
  | Except.ok contact => ⟨Except.ok (ContactService.toContactResponse contact), db, []⟩

/-- Application of `prisma.contact.update`'s data payload to one row: the
data object is the validated `UpdateContactRequest`, so the id column is
written with `data.id` and each optional field is written only when
present (an undefined field is skipped by the storage layer); the username
column is not in the payload and keeps its value. -/
def applyUpdateData (c : Contact) (r : UpdateContactRequest) : Contact :=
  { id := r.id
    first_name := r.first_name.getD c.first_name
    last_name := match r.last_name with | some v => some v | none => c.last_name
    email := match r.email with | some v => some v | none => c.email
    phone := match r.phone with | some v => some v | none => c.phone
    username := c.username }

/-- `prisma.contact.update({ where: { id, username }, data })`: rewrites
the rows matching the where clause with the data payload applied. -/
def Db.updateWhere (db : Db) (id : Nat) (username : String) (r : UpdateContactRequest) : Db :=
  { db with rows := db.rows.map fun c =>
      if c.id == id && c.username == username then applyUpdateData c r else c }

/-- `ContactService.update(user, request)` (contact.service.ts lines
124-151): validates against the UPDATE schema, then
`checkContactMustExists(user.username, updateRequest.id)`, then
`prisma.contact.update` keyed by the fetched contact's (id, username) with
the validated data, and returns `toContactResponse` of the updated row. -/
def ContactService.update (db : Db) (user : User) (request : UpdateContactRequest) :
    OpResult ContactResponse :=
  match validateUpdate request with
  | Except.error e => ⟨Except.error e, db, []⟩
  | Except.ok updateRequest =>
    match ContactService.checkContactMustExists db user.username updateRequest.id with
    | Except.error e => ⟨Except.error e, db, []⟩
    | Except.ok contact =>
      ⟨Except.ok (ContactService.toContactResponse (applyUpdateData contact updateRequest)),
        Db.updateWhere db contact.id contact.username updateRequest,
        [StorageWrite.updateRow contact.id contact.username updateRequest]⟩

/-- Modelled from the spec: `ContactService.remove(user, contactId)` is
invoked by `ContactController.remove` but its body is not among the given
source files. Spec section 4.1: "Same ownership-checked existence check,
then deletes the row. Returns no payload (caller wraps success as a
boolean true)." The delete is keyed like the other mutations by the
fetched contact's (id, username). -/
def ContactService.remove (db : Db) (user : User) (contactId : Nat) : OpResult Unit :=
  match ContactService.checkContactMustExists db user.username contactId with
  | Except.error e => ⟨Except.error e, db, []⟩
  | Except.ok contact =>
    ⟨Except.ok (),
      ⟨db.rows.filter (fun c => !(c.id == contact.id && c.username == contact.username)),
        db.nextId⟩,
      [StorageWrite.deleteRow contact.id contact.username]⟩

/-- `ContactController.create` (contact.controller.ts lines 36-49): calls
the service and wraps the DTO as `{ data: result }`. -/
def ContactController.create (db : Db) (user : User) (request : CreateContactRequest) :
    OpResult (WebResponse ContactResponse) :=
  let r := ContactService.create db user request
  ⟨r.result.map (fun a => ⟨a⟩), r.db, r.writes⟩

/-- `ContactController.get` (contact.controller.ts lines 58-70): calls the
service and wraps the DTO as `{ data: result }`. -/
def ContactController.get (db : Db) (user : User) (contactId : Nat) :
    OpResult (WebResponse ContactResponse) :=
  let r := ContactService.get db user contactId
  ⟨r.result.map (fun a => ⟨a⟩), r.db, r.writes⟩

/-- `ContactController.update` (contact.controller.ts lines 72-89): first
executes `request.id = contactId`, overwriting any body-supplied id with
the path parameter, then calls `ContactService.update` and wraps the
result. -/
def ContactController.update (db : Db) (user : User) (contactId : Nat)
    (request : UpdateContactRequest) : OpResult (WebResponse ContactResponse) :=
  let r := ContactService.update db user { request with id := contactId }
  ⟨r.result.map (fun a => ⟨a⟩), r.db, r.writes⟩

/-- `ContactController.remove` (contact.controller.ts lines 92-105): awaits
`ContactService.remove` and returns `{ data: true }` on success. -/
def ContactController.remove (db : Db) (user : User) (contactId : Nat) :
    OpResult (WebResponse Bool) :=
  let r := ContactService.remove db user contactId
  ⟨r.result.map (fun _ => ⟨true⟩), r.db, r.writes⟩

/-! Concrete fixtures used by witnesses and counterexamples. -/

/-- A sample authenticated user. -/
def alice : User :=
  { username := "alice", password := "pw", name := "Alice", token := some "tok" }

/-- A second user, owner of the foreign row in the fixtures. -/
def bob : User :=
  { username := "bob", password := "pw", name := "Bob", token := none }

/-- The empty contacts table. -/
def dbEmpty : Db :=
  { rows := [], nextId := 1 }

/-- A contact row owned by bob with id 1. -/
def bobRow : Contact :=
  { id := 1, first_name := "Ben", last_name := none, email := none,
    phone := none, username := "bob" }

/-- A contact row owned by alice with id 1, fully populated. -/
def aliceRow : Contact :=
  { id := 1, first_name := "Ann", last_name := some "Lee",
    email := some "ann@x.com", phone := some "123", username := "alice" }

/-- A table holding only bob's row. -/
def dbBobOnly : Db :=
  { rows := [bobRow], nextId := 2 }

/-- A table holding only alice's row. -/
def dbAliceOnly : Db :=
  { rows := [aliceRow], nextId := 2 }

/-- A valid create request omitting the optional last_name and phone. -/
def sampleCreateReq : CreateContactRequest :=
  { first_name := "Ann", last_name := none, email := some "ann@x.com",
    phone := none, username := none }

/-- An update request for id 1 supplying only last_name. -/
def sampleUpdateReq : UpdateContactRequest :=
  { id := 1, first_name := none, last_name := some "Lee", email := none, phone := none }

/-! Shared lemmas about the ownership-checked existence lookup. -/

/-- The lookup fails exactly on the not-found exception when no row of the
table has both the caller's username and the requested id. -/
theorem checkContactMustExists_eq_error (db : Db) (username : String) (i : Nat)
    (h : ∀ c ∈ db.rows, ¬(c.username = username ∧ c.id = i)) :
    ContactService.checkContactMustExists db username i = Except.error contactNotFound := by
  unfold ContactService.checkContactMustExists
  have hnone : db.rows.find? (ownedBy username i) = none := by
    rw [List.find?_eq_none]
    intro c hc
    have hcontra := h c hc
    simp only [ownedBy, Bool.and_eq_true, beq_iff_eq]
    intro hand
    exact hcontra ⟨hand.1, hand.2⟩
  rw [hnone]

/-- A successful lookup returns a row of the table owned by the caller and
carrying the requested id. -/
theorem checkContactMustExists_ok (db : Db) (username : String) (i : Nat) (c : Contact)
    (h : ContactService.checkContactMustExists db username i = Except.ok c) :
    c ∈ db.rows ∧ c.username = username ∧ c.id = i := by
  unfold ContactService.checkContactMustExists at h
  cases hf : db.rows.find? (ownedBy username i) with
  | none => rw [hf] at h; cases h
  | some d =>
    rw [hf] at h
    cases h
    have hmem := List.mem_of_find?_eq_some hf
    have hp := List.find?_some hf
    simp only [ownedBy, Bool.and_eq_true, beq_iff_eq] at hp
    exact ⟨hmem, hp.1, hp.2⟩

/-- The lookup has exactly one error: the not-found exception. -/
theorem checkContactMustExists_error_eq (db : Db) (username : String) (i : Nat)
    (e : ServiceError)
    (h : ContactService.checkContactMustExists db username i = Except.error e) :
    e = contactNotFound := by
  unfold ContactService.checkContactMustExists at h
  cases hf : db.rows.find? (ownedBy username i) with
  | none => rw [hf] at h; cases h; rfl
  | some d => rw [hf] at h; cases h

/-! Characterizations of the four operations: each is, case by case, one of
finitely many explicit outcomes. All claim proofs run through these. -/

/-- Get either fails on the not-found exception leaving the state alone, or
returns the DTO of the fetched row, also leaving the state alone. -/
theorem get_result_cases (db : Db) (u : User) (i : Nat) :
    (ContactService.checkContactMustExists db u.username i = Except.error contactNotFound ∧
      ContactService.get db u i = ⟨Except.error contactNotFound, db, []⟩) ∨
    (∃ c, ContactService.checkContactMustExists db u.username i = Except.ok c ∧
      ContactService.get db u i = ⟨Except.ok (ContactService.toContactResponse c), db, []⟩) := by
  cases hc : ContactService.checkContactMustExists db u.username i with
  | error e =>
    have he := checkContactMustExists_error_eq db u.username i e hc
    subst he
    exact Or.inl ⟨rfl, by simp only [ContactService.get, hc]⟩
  | ok c =>
    exact Or.inr ⟨c, rfl, by simp only [ContactService.get, hc]⟩

/-- Remove either fails on the not-found exception leaving the state alone,
or deletes the rows keyed by the fetched contact's (id, username). -/
theorem remove_result_cases (db : Db) (u : User) (i : Nat) :
    (ContactService.checkContactMustExists db u.username i = Except.error contactNotFound ∧
      ContactService.remove db u i = ⟨Except.error contactNotFound, db, []⟩) ∨
    (∃ c, ContactService.checkContactMustExists db u.username i = Except.ok c ∧
      c ∈ db.rows ∧ c.username = u.username ∧ c.id = i ∧
      ContactService.remove db u i =
        ⟨Except.ok (),
          ⟨db.rows.filter (fun x => !(x.id == c.id && x.username == c.username)), db.nextId⟩,
          [StorageWrite.deleteRow c.id c.username]⟩) := by
  cases hc : ContactService.checkContactMustExists db u.username i with
  | error e =>
    have he := checkContactMustExists_error_eq db u.username i e hc
    subst he
    exact Or.inl ⟨rfl, by simp only [ContactService.remove, hc]⟩
  | ok c =>
    obtain ⟨hmem, hu, hi⟩ := checkContactMustExists_ok db u.username i c hc
    exact Or.inr ⟨c, rfl, hmem, hu, hi, by simp only [ContactService.remove, hc]⟩

/-- Create either fails validation leaving the state alone, or appends the
new row built from the validated fields and the authenticated username. -/
theorem create_result_cases (db : Db) (u : User) (req : CreateContactRequest) :
    (createRequestValid req = false ∧
      ContactService.create db u req =
        ⟨Except.error (ServiceError.validationFailure "Validation failed"), db, []⟩) ∨
    (createRequestValid req = true ∧
      ContactService.create db u req =
        ⟨Except.ok (ContactService.toContactResponse (newContactRow db u req)),
          ⟨db.rows ++ [newContactRow db u req], db.nextId + 1⟩,
          [StorageWrite.insertRow (newContactRow db u req)]⟩) := by
  by_cases hv : createRequestValid req = true
  · exact Or.inr ⟨hv, by simp only [ContactService.create, validateCreate, hv, if_true]⟩
  · refine Or.inl ⟨by simpa using hv, ?_⟩
    simp [ContactService.create, validateCreate, hv]

/-- Update either fails validation, or fails the ownership check on the
not-found exception, or rewrites the rows keyed by the fetched contact's
(id, username) with the validated data; the state is unchanged on both
failures. -/
theorem update_result_cases (db : Db) (u : User) (req : UpdateContactRequest) :
    (updateRequestValid req = false ∧
      ContactService.update db u req =
        ⟨Except.error (ServiceError.validationFailure "Validation failed"), db, []⟩) ∨
    (updateRequestValid req = true ∧
      ContactService.checkContactMustExists db u.username req.id = Except.error contactNotFound ∧
      ContactService.update db u req = ⟨Except.error contactNotFound, db, []⟩) ∨
    (∃ c, updateRequestValid req = true ∧
      ContactService.checkContactMustExists db u.username req.id = Except.ok c ∧
      c ∈ db.rows ∧ c.username = u.username ∧ c.id = req.id ∧
      ContactService.update db u req =
        ⟨Except.ok (ContactService.toContactResponse (applyUpdateData c req)),
          Db.updateWhere db c.id c.username req,
          [StorageWrite.updateRow c.id c.username req]⟩) := by
  by_cases hv : updateRequestValid req = true
  · cases hc : ContactService.checkContactMustExists db u.username req.id with
    | error e =>
      have he := checkContactMustExists_error_eq db u.username req.id e hc
      subst he
      exact Or.inr (Or.inl ⟨hv, rfl,
        by simp only [ContactService.update, validateUpdate, hv, if_true, hc]⟩)
    | ok c =>
      obtain ⟨hmem, hu, hi⟩ := checkContactMustExists_ok db u.username req.id c hc
      exact Or.inr (Or.inr ⟨c, hv, rfl, hmem, hu, hi,
        by simp only [ContactService.update, validateUpdate, hv, if_true, hc]⟩)
  · refine Or.inl ⟨by simpa using hv, ?_⟩
    simp [ContactService.update, validateUpdate, hv]

/-- Every error surfaced by get is the not-found exception. -/
theorem get_error_eq (db : Db) (u : User) (i : Nat) (s : ServiceError)
    (h : (ContactService.get db u i).result = Except.error s) :
    s = contactNotFound := by
  rcases get_result_cases db u i with ⟨_, hop⟩ | ⟨c, _, hop⟩ <;> rw [hop] at h
  · cases h; rfl
  · cases h

/-- Every error surfaced by remove is the not-found exception. -/
theorem remove_error_eq (db : Db) (u : User) (i : Nat) (s : ServiceError)
    (h : (ContactService.remove db u i).result = Except.error s) :
    s = contactNotFound := by
  rcases remove_result_cases db u i with ⟨_, hop⟩ | ⟨c, _, _, _, _, hop⟩ <;> rw [hop] at h
  · cases h; rfl
  · cases h

/-- Every error surfaced by update is the not-found exception or a
validation failure. -/
theorem update_error_eq (db : Db) (u : User) (req : UpdateContactRequest) (s : ServiceError)
    (h : (ContactService.update db u req).result = Except.error s) :
    s = contactNotFound ∨ ∃ m, s = ServiceError.validationFailure m := by
  rcases update_result_cases db u req with ⟨_, hop⟩ | ⟨_, _, hop⟩ | ⟨c, _, _, _, _, _, hop⟩ <;>
    rw [hop] at h
  · cases h; exact Or.inr ⟨"Validation failed", rfl⟩
  · cases h; exact Or.inl rfl
  · cases h

/-! Claim theorems. -/

/-- C1: for every contact id that is not owned by the calling user —
whether the id belongs to a different user's contact or to no contact at
all — get, update and remove fail with the not-found `HttpException`
('Contact is not found', 404) and never succeed or return contact data. -/
theorem unowned_id_get_update_remove_fail (db : Db) (u : User) (i : Nat)
    (req : UpdateContactRequest)
    (hreq : req.id = i)
    (h : ∀ c ∈ db.rows, ¬(c.username = u.username ∧ c.id = i)) :
    (ContactService.get db u i).result = Except.error contactNotFound ∧
    (ContactService.remove db u i).result = Except.error contactNotFound ∧
    (updateRequestValid req = true →
      (ContactService.update db u req).result = Except.error contactNotFound) ∧
    ∀ resp : ContactResponse,
      (ContactService.update db u req).result ≠ Except.ok resp := by
  subst hreq
  have hch := checkContactMustExists_eq_error db u.username req.id h
  have hget : (ContactService.get db u req.id).result = Except.error contactNotFound := by
    rcases get_result_cases db u req.id with ⟨_, hop⟩ | ⟨c, hc, hop⟩
    · rw [hop]
    · rw [hc] at hch; cases hch
  have hrem : (ContactService.remove db u req.id).result = Except.error contactNotFound := by
    rcases remove_result_cases db u req.id with ⟨_, hop⟩ | ⟨c, hc, _, _, _, hop⟩
    · rw [hop]
    · rw [hc] at hch; cases hch
  refine ⟨hget, hrem, ?_, ?_⟩
  · intro hv
    rcases update_result_cases db u req with ⟨hf, hop⟩ | ⟨_, _, hop⟩ | ⟨c, _, hc, _, _, _, hop⟩
    · rw [hv] at hf; cases hf
    · rw [hop]
    · rw [hc] at hch; cases hch
  · intro resp hok
    rcases update_result_cases db u req with ⟨_, hop⟩ | ⟨_, _, hop⟩ | ⟨c, _, hc, _, _, _, hop⟩
    · rw [hop] at hok; cases hok
    · rw [hop] at hok; cases hok
    · rw [hc] at hch; cases hch

/-- C1 witness: with bob's row the only contact, id 1 is not owned by
alice, and get, update and remove by alice on id 1 all fail with the
not-found exception. -/
theorem unowned_id_get_update_remove_fail_witness :
    (ContactService.get dbBobOnly alice 1).result = Except.error contactNotFound ∧
    (ContactService.remove dbBobOnly alice 1).result = Except.error contactNotFound ∧
    (updateRequestValid sampleUpdateReq = true →
      (ContactService.update dbBobOnly alice sampleUpdateReq).result =
        Except.error contactNotFound) ∧
    ∀ resp : ContactResponse,
      (ContactService.update dbBobOnly alice sampleUpdateReq).result ≠ Except.ok resp :=
  unowned_id_get_update_remove_fail dbBobOnly alice 1 sampleUpdateReq rfl (by decide)

/-- C2: remove runs the same ownership-checked existence check as get
(failing with the not-found exception when no row matches), on success
deletes the matching row and the controller wraps the outcome as
`{ data: true }`; afterwards a get by the same user on the same id always
fails with the not-found exception. -/
theorem remove_checks_deletes_and_get_after_fails (db : Db) (u : User) (i : Nat) :
    (ContactService.checkContactMustExists db u.username i = Except.error contactNotFound →
      (ContactController.remove db u i).result = Except.error contactNotFound ∧
      (ContactController.remove db u i).db = db) ∧
    (∀ c : Contact, ContactService.checkContactMustExists db u.username i = Except.ok c →
      (ContactController.remove db u i).result = Except.ok ⟨true⟩ ∧
      (ContactController.remove db u i).writes = [StorageWrite.deleteRow c.id c.username]) ∧
    (ContactService.get (ContactController.remove db u i).db u i).result =
      Except.error contactNotFound := by
  rcases remove_result_cases db u i with ⟨hc, hop⟩ | ⟨c, hc, hmem, hu, hi, hop⟩
  · refine ⟨fun _ => ?_, fun c hcok => ?_, ?_⟩
    · constructor <;> simp [ContactController.remove, hop, Except.map]
    · rw [hcok] at hc; cases hc
    · have hdb : (ContactController.remove db u i).db = db := by
        simp [ContactController.remove, hop]
      rw [hdb]
      rcases get_result_cases db u i with ⟨_, hgop⟩ | ⟨d, hd, hgop⟩
      · rw [hgop]
      · rw [hd] at hc; cases hc
  · refine ⟨fun hcerr => ?_, fun d hcok => ?_, ?_⟩
    · rw [hcerr] at hc; cases hc
    · rw [hc] at hcok
      cases hcok
      constructor <;> simp [ContactController.remove, hop, Except.map]
    · have hdb : (ContactController.remove db u i).db =
          ⟨db.rows.filter (fun x => !(x.id == c.id && x.username == c.username)), db.nextId⟩ := by
        simp [ContactController.remove, hop]
      rw [hdb]
      have hnone : ∀ x ∈ db.rows.filter (fun x => !(x.id == c.id && x.username == c.username)),
          ¬(x.username = u.username ∧ x.id = i) := by
        intro x hx
        rcases List.mem_filter.mp hx with ⟨_, hpx⟩
        simp only [Bool.not_eq_eq_eq_not, Bool.not_true, Bool.and_eq_false_iff,
          beq_eq_false_iff_ne] at hpx
        intro hand
        rcases hpx with hpx | hpx
        · exact hpx (hand.2.trans hi.symm)
        · exact hpx (hand.1.trans hu.symm)
      have hch2 := checkContactMustExists_eq_error
        ⟨db.rows.filter (fun x => !(x.id == c.id && x.username == c.username)), db.nextId⟩
        u.username i hnone
      rcases get_result_cases
          ⟨db.rows.filter (fun x => !(x.id == c.id && x.username == c.username)), db.nextId⟩
          u i with ⟨_, hgop⟩ | ⟨d, hd, hgop⟩
      · rw [hgop]
      · rw [hd] at hch2; cases hch2

/-- C3 (amended): the workflow has a single not-found code path — the
`HttpException` of `checkContactMustExists` — so every HttpException
surfaced by get, remove or update carries status 404; no execution reports
the not-found condition with status 400. -/
theorem notFound_reported_only_as_404 (db : Db) (u : User) (i : Nat)
    (req : UpdateContactRequest) (e : HttpException) :
    ((ContactService.get db u i).result = Except.error (ServiceError.http e) →
      e.status = 404) ∧
    ((ContactService.remove db u i).result = Except.error (ServiceError.http e) →
      e.status = 404) ∧
    ((ContactService.update db u req).result = Except.error (ServiceError.http e) →
      e.status = 404) := by
  refine ⟨fun h => ?_, fun h => ?_, fun h => ?_⟩
  · have := get_error_eq db u i _ h
    cases this; rfl
  · have := remove_error_eq db u i _ h
    cases this; rfl
  · rcases update_error_eq db u req _ h with h404 | ⟨m, hval⟩
    · cases h404; rfl
    · cases hval

/-- C3 counterexample: the claim that some execution reports a missing or
unowned contact with HTTP status 400 is false on this code: the concrete
failing get reports status 404, and no execution of get, remove or update
surfaces an HttpException with status 400. -/
theorem no_execution_reports_status_400 :
    (ContactService.get dbEmpty alice 1).result =
      Except.error (ServiceError.http ⟨"Contact is not found", 404⟩) ∧
    ¬ ∃ (db : Db) (u : User) (i : Nat) (req : UpdateContactRequest) (e : HttpException),
        e.status = 400 ∧
        ((ContactService.get db u i).result = Except.error (ServiceError.http e) ∨
          (ContactService.remove db u i).result = Except.error (ServiceError.http e) ∨
          (ContactService.update db u req).result = Except.error (ServiceError.http e)) := by
  constructor
  · decide
  · rintro ⟨db, u, i, req, e, h400, hcase⟩
    have h404 : e.status = 404 := by
      rcases hcase with h | h | h
      · have := get_error_eq db u i _ h
        cases this; rfl
      · have := remove_error_eq db u i _ h
        cases this; rfl
      · rcases update_error_eq db u req _ h with hnf | ⟨m, hval⟩
        · cases hnf; rfl
        · cases hval
    rw [h400] at h404
    cases h404

/-- C4: each of create, update and remove either fails leaving the stored
state unchanged and no mutating storage call executed, or succeeds having
executed exactly one mutating storage call. -/
theorem mutations_all_or_nothing (db : Db) (u : User) (req : CreateContactRequest)
    (ureq : UpdateContactRequest) (i : Nat) :
    (∀ e, (ContactService.create db u req).result = Except.error e →
      (ContactService.create db u req).db = db ∧
      (ContactService.create db u req).writes = []) ∧
    (∀ a, (ContactService.create db u req).result = Except.ok a →
      (ContactService.create db u req).writes.length = 1) ∧
    (∀ e, (ContactService.update db u ureq).result = Except.error e →
      (ContactService.update db u ureq).db = db ∧
      (ContactService.update db u ureq).writes = []) ∧
    (∀ a, (ContactService.update db u ureq).result = Except.ok a →
      (ContactService.update db u ureq).writes.length = 1) ∧
    (∀ e, (ContactService.remove db u i).result = Except.error e →
      (ContactService.remove db u i).db = db ∧
      (ContactService.remove db u i).writes = []) ∧
    (∀ a, (ContactService.remove db u i).result = Except.ok a →
      (ContactService.remove db u i).writes.length = 1) := by
  refine ⟨?_, ?_, ?_, ?_, ?_, ?_⟩
  · intro e he
    rcases create_result_cases db u req with ⟨_, hop⟩ | ⟨_, hop⟩ <;> rw [hop] at he ⊢
    · exact ⟨rfl, rfl⟩
    · cases he
  · intro a ha
    rcases create_result_cases db u req with ⟨_, hop⟩ | ⟨_, hop⟩ <;> rw [hop] at ha ⊢
    · cases ha
    · rfl
  · intro e he
    rcases update_result_cases db u ureq with ⟨_, hop⟩ | ⟨_, _, hop⟩ | ⟨c, _, _, _, _, _, hop⟩ <;>
      rw [hop] at he ⊢
    · exact ⟨rfl, rfl⟩
    · exact ⟨rfl, rfl⟩
    · cases he
  · intro a ha
    rcases update_result_cases db u ureq with ⟨_, hop⟩ | ⟨_, _, hop⟩ | ⟨c, _, _, _, _, _, hop⟩ <;>
      rw [hop] at ha ⊢
    · cases ha
    · cases ha
    · rfl
  · intro e he
    rcases remove_result_cases db u i with ⟨_, hop⟩ | ⟨c, _, _, _, _, hop⟩ <;> rw [hop] at he ⊢
    · exact ⟨rfl, rfl⟩
    · cases he
  · intro a ha
    rcases remove_result_cases db u i with ⟨_, hop⟩ | ⟨c, _, _, _, _, hop⟩ <;> rw [hop] at ha ⊢
    · cases ha
    · rfl

/-! Additional shared consequences of the characterizations. -/

/-- Get surfaces the not-found exception whenever the lookup fails. -/
theorem get_error_of_check_error (db : Db) (u : User) (i : Nat)
    (hc : ContactService.checkContactMustExists db u.username i = Except.error contactNotFound) :
    (ContactService.get db u i).result = Except.error contactNotFound := by
  rcases get_result_cases db u i with ⟨_, hop⟩ | ⟨c, hd, _⟩
  · rw [hop]
  · rw [hd] at hc; cases hc

/-- Remove surfaces the not-found exception whenever the lookup fails. -/
theorem remove_error_of_check_error (db : Db) (u : User) (i : Nat)
    (hc : ContactService.checkContactMustExists db u.username i = Except.error contactNotFound) :
    (ContactService.remove db u i).result = Except.error contactNotFound := by
  rcases remove_result_cases db u i with ⟨_, hop⟩ | ⟨c, hd, _, _, _, _⟩
  · rw [hop]
  · rw [hd] at hc; cases hc

/-- Update surfaces the not-found exception whenever the request is valid
and the lookup fails. -/
theorem update_error_of_check_error (db : Db) (u : User) (req : UpdateContactRequest)
    (hv : updateRequestValid req = true)
    (hc : ContactService.checkContactMustExists db u.username req.id =
      Except.error contactNotFound) :
    (ContactService.update db u req).result = Except.error contactNotFound := by
  rcases update_result_cases db u req with ⟨hf, _⟩ | ⟨_, _, hop⟩ | ⟨c, _, hd, _, _, _, _⟩
  · rw [hv] at hf; cases hf
  · rw [hop]
  · rw [hd] at hc; cases hc

/-- Update surfaces the validation error whenever the request is invalid. -/
theorem update_error_of_invalid (db : Db) (u : User) (req : UpdateContactRequest)
    (hv : updateRequestValid req = false) :
    (ContactService.update db u req).result =
      Except.error (ServiceError.validationFailure "Validation failed") := by
  rcases update_result_cases db u req with ⟨_, hop⟩ | ⟨ht, _, _⟩ | ⟨c, ht, _, _, _, _, _⟩
  · rw [hop]
  · rw [ht] at hv; cases hv
  · rw [ht] at hv; cases hv

/-- The data payload of update never writes the username column. -/
theorem applyUpdateData_username (c : Contact) (r : UpdateContactRequest) :
    (applyUpdateData c r).username = c.username := rfl

/-- C5: for a valid create request by an authenticated user, the returned
DTO has fields equal to the input fields (omitted optional fields stay
none, the JSON null) and carries the fresh id, and get with the returned
id by the same user returns the identical DTO. Freshness of the
autoincremented id among the stored rows is the standing invariant of the
id column. -/
theorem create_then_get_roundtrip (db : Db) (u : User) (req : CreateContactRequest)
    (hvalid : createRequestValid req = true)
    (hfresh : ∀ c ∈ db.rows, c.id ≠ db.nextId) :
    ∃ resp : ContactResponse,
      (ContactService.create db u req).result = Except.ok resp ∧
      resp.first_name = req.first_name ∧
      resp.last_name = req.last_name ∧
      resp.email = req.email ∧
      resp.phone = req.phone ∧
      resp.id = db.nextId ∧
      (ContactService.get (ContactService.create db u req).db u resp.id).result =
        Except.ok resp := by
  rcases create_result_cases db u req with ⟨hf, _⟩ | ⟨_, hop⟩
  · rw [hvalid] at hf; cases hf
  refine ⟨ContactService.toContactResponse (newContactRow db u req),
    ?_, rfl, rfl, rfl, rfl, rfl, ?_⟩
  · rw [hop]
  · rw [hop]
    show (ContactService.get ⟨db.rows ++ [newContactRow db u req], db.nextId + 1⟩
      u db.nextId).result = Except.ok (ContactService.toContactResponse (newContactRow db u req))
    have hcheck : ContactService.checkContactMustExists
        ⟨db.rows ++ [newContactRow db u req], db.nextId + 1⟩ u.username db.nextId =
        Except.ok (newContactRow db u req) := by
      unfold ContactService.checkContactMustExists
      have hfind : (db.rows ++ [newContactRow db u req]).find? (ownedBy u.username db.nextId) =
          some (newContactRow db u req) := by
        rw [List.find?_append]
        have h1 : db.rows.find? (ownedBy u.username db.nextId) = none := by
          rw [List.find?_eq_none]
          intro x hx
          simp only [ownedBy, Bool.and_eq_true, beq_iff_eq]
          intro hand
          exact hfresh x hx hand.2
        rw [h1]
        simp [ownedBy, newContactRow]
      rw [hfind]
    rcases get_result_cases ⟨db.rows ++ [newContactRow db u req], db.nextId + 1⟩ u db.nextId
      with ⟨hcerr, _⟩ | ⟨d, hd, hgop⟩
    · rw [hcheck] at hcerr; cases hcerr
    · rw [hcheck] at hd
      cases hd
      rw [hgop]

/-- C5 witness: creating Ann with only the email field set for alice in
the empty table returns the DTO with last_name and phone none and id 1,
and get 1 as alice returns it again. -/
theorem create_then_get_roundtrip_witness :
    ∃ resp : ContactResponse,
      (ContactService.create dbEmpty alice sampleCreateReq).result = Except.ok resp ∧
      resp.first_name = sampleCreateReq.first_name ∧
      resp.last_name = sampleCreateReq.last_name ∧
      resp.email = sampleCreateReq.email ∧
      resp.phone = sampleCreateReq.phone ∧
      resp.id = dbEmpty.nextId ∧
      (ContactService.get (ContactService.create dbEmpty alice sampleCreateReq).db alice
        resp.id).result = Except.ok resp :=
  create_then_get_roundtrip dbEmpty alice sampleCreateReq (by decide) (by decide)

/-- C6: a validated partial update rewrites exactly the rows matched by the
fetched contact's key, per the data payload: supplied optional fields take
the supplied values, omitted fields keep their prior stored values, the
username column is untouched, and the id column is rewritten with the
request id, which equals the fetched row's own id; every other row of the
table is left unchanged. -/
theorem update_changes_only_supplied_fields (db : Db) (u : User)
    (req : UpdateContactRequest) (c : Contact)
    (hvalid : updateRequestValid req = true)
    (hcheck : ContactService.checkContactMustExists db u.username req.id = Except.ok c) :
    (ContactService.update db u req).db.rows =
      db.rows.map (fun r =>
        if r.id == c.id && r.username == c.username then applyUpdateData r req else r) ∧
    c.id = req.id ∧
    (applyUpdateData c req).id = c.id ∧
    (applyUpdateData c req).username = c.username ∧
    (∀ v, req.first_name = some v → (applyUpdateData c req).first_name = v) ∧
    (req.first_name = none → (applyUpdateData c req).first_name = c.first_name) ∧
    (∀ v, req.last_name = some v → (applyUpdateData c req).last_name = some v) ∧
    (req.last_name = none → (applyUpdateData c req).last_name = c.last_name) ∧
    (∀ v, req.email = some v → (applyUpdateData c req).email = some v) ∧
    (req.email = none → (applyUpdateData c req).email = c.email) ∧
    (∀ v, req.phone = some v → (applyUpdateData c req).phone = some v) ∧
    (req.phone = none → (applyUpdateData c req).phone = c.phone) := by
  rcases update_result_cases db u req with ⟨hf, _⟩ | ⟨_, hcerr, _⟩ | ⟨d, _, hd, _, _, hi, hop⟩
  · rw [hvalid] at hf; cases hf
  · rw [hcheck] at hcerr; cases hcerr
  · rw [hcheck] at hd
    cases hd
    refine ⟨?_, hi, ?_, rfl, ?_, ?_, ?_, ?_, ?_, ?_, ?_, ?_⟩
    · rw [hop]; rfl
    · show req.id = c.id
      exact hi.symm
    · intro v hv; simp [applyUpdateData, hv]
    · intro hv; simp [applyUpdateData, hv]
    · intro v hv; simp [applyUpdateData, hv]
    · intro hv; simp [applyUpdateData, hv]
    · intro v hv; simp [applyUpdateData, hv]
    · intro hv; simp [applyUpdateData, hv]
    · intro v hv; simp [applyUpdateData, hv]
    · intro hv; simp [applyUpdateData, hv]

/-- C6 witness: updating alice's fully populated contact 1 with only
last_name "Lee" supplied rewrites last_name, keeps first_name, email and
phone at their prior values, and leaves username and id unchanged. -/
theorem update_changes_only_supplied_fields_witness :
    (ContactService.update dbAliceOnly alice sampleUpdateReq).db.rows =
      dbAliceOnly.rows.map (fun r =>
        if r.id == aliceRow.id && r.username == aliceRow.username
        then applyUpdateData r sampleUpdateReq else r) ∧
    aliceRow.id = sampleUpdateReq.id ∧
    (applyUpdateData aliceRow sampleUpdateReq).id = aliceRow.id ∧
    (applyUpdateData aliceRow sampleUpdateReq).username = aliceRow.username ∧
    (∀ v, sampleUpdateReq.first_name = some v →
      (applyUpdateData aliceRow sampleUpdateReq).first_name = v) ∧
    (sampleUpdateReq.first_name = none →
      (applyUpdateData aliceRow sampleUpdateReq).first_name = aliceRow.first_name) ∧
    (∀ v, sampleUpdateReq.last_name = some v →
      (applyUpdateData aliceRow sampleUpdateReq).last_name = some v) ∧
    (sampleUpdateReq.last_name = none →
      (applyUpdateData aliceRow sampleUpdateReq).last_name = aliceRow.last_name) ∧
    (∀ v, sampleUpdateReq.email = some v →
      (applyUpdateData aliceRow sampleUpdateReq).email = some v) ∧
    (sampleUpdateReq.email = none →
      (applyUpdateData aliceRow sampleUpdateReq).email = aliceRow.email) ∧
    (∀ v, sampleUpdateReq.phone = some v →
      (applyUpdateData aliceRow sampleUpdateReq).phone = some v) ∧
    (sampleUpdateReq.phone = none →
      (applyUpdateData aliceRow sampleUpdateReq).phone = aliceRow.phone) :=
  update_changes_only_supplied_fields dbAliceOnly alice sampleUpdateReq aliceRow
    (by decide) (by decide)

/-- C7: every successful create inserts exactly one row whose username
column is the authenticated user's username, and the client-supplied
username field has no influence at all on create's outcome: replacing it
by any value yields the identical result, state and writes. -/
theorem create_username_from_authenticated_user (db : Db) (u : User)
    (req : CreateContactRequest) (s : Option String) :
    (∀ a, (ContactService.create db u req).result = Except.ok a →
      ∃ newRow : Contact,
        (ContactService.create db u req).db.rows = db.rows ++ [newRow] ∧
        newRow.username = u.username ∧
        (ContactService.create db u req).writes = [StorageWrite.insertRow newRow]) ∧
    ContactService.create db u { req with username := s } = ContactService.create db u req := by
  constructor
  · intro a ha
    rcases create_result_cases db u req with ⟨_, hop⟩ | ⟨_, hop⟩
    · rw [hop] at ha; cases ha
    · exact ⟨newContactRow db u req, by rw [hop], rfl, by rw [hop]⟩
  · have hval : createRequestValid { req with username := s } = createRequestValid req := rfl
    by_cases hv : createRequestValid req = true
    · rcases create_result_cases db u req with ⟨hf, _⟩ | ⟨_, hop⟩
      · rw [hv] at hf; cases hf
      · rcases create_result_cases db u { req with username := s } with ⟨hf2, _⟩ | ⟨_, hop2⟩
        · rw [hval, hv] at hf2; cases hf2
        · rw [hop, hop2]; rfl
    · have hvf : createRequestValid req = false := by simpa using hv
      rcases create_result_cases db u req with ⟨_, hop⟩ | ⟨ht, _⟩
      swap
      · rw [ht] at hvf; cases hvf
      · rcases create_result_cases db u { req with username := s } with ⟨_, hop2⟩ | ⟨ht2, _⟩
        · rw [hop, hop2]
        · rw [hval] at ht2; rw [ht2] at hvf; cases hvf

/-- C8: to a caller, an id carried by no row at all and an id carried only
by another user's row are observationally identical: get, remove and
update produce the same outcome in both states, the not-found outcome for
get. -/
theorem foreign_and_missing_indistinguishable (db1 db2 : Db) (u : User) (i : Nat)
    (req : UpdateContactRequest)
    (hreq : req.id = i)
    (h1 : ∀ c ∈ db1.rows, c.id ≠ i)
    (h2 : ∀ c ∈ db2.rows, c.id = i → c.username ≠ u.username)
    (h2x : ∃ c ∈ db2.rows, c.id = i) :
    (ContactService.get db1 u i).result = (ContactService.get db2 u i).result ∧
    (ContactService.get db1 u i).result = Except.error contactNotFound ∧
    (ContactService.remove db1 u i).result = (ContactService.remove db2 u i).result ∧
    (ContactService.update db1 u req).result = (ContactService.update db2 u req).result := by
  subst hreq
  have hc1 : ContactService.checkContactMustExists db1 u.username req.id =
      Except.error contactNotFound :=
    checkContactMustExists_eq_error db1 u.username req.id
      (fun c hc hand => h1 c hc hand.2)
  have hc2 : ContactService.checkContactMustExists db2 u.username req.id =
      Except.error contactNotFound :=
    checkContactMustExists_eq_error db2 u.username req.id
      (fun c hc hand => h2 c hc hand.2 hand.1)
  have hg1 := get_error_of_check_error db1 u req.id hc1
  have hg2 := get_error_of_check_error db2 u req.id hc2
  have hr1 := remove_error_of_check_error db1 u req.id hc1
  have hr2 := remove_error_of_check_error db2 u req.id hc2
  refine ⟨hg1.trans hg2.symm, hg1, hr1.trans hr2.symm, ?_⟩
  by_cases hv : updateRequestValid req = true
  · rw [update_error_of_check_error db1 u req hv hc1,
      update_error_of_check_error db2 u req hv hc2]
  · have hvf : updateRequestValid req = false := by simpa using hv
    rw [update_error_of_invalid db1 u req hvf, update_error_of_invalid db2 u req hvf]

/-- C8 witness: for alice, id 1 in the empty table and id 1 in the table
holding only bob's contact 1 are indistinguishable across get, remove and
update. -/
theorem foreign_and_missing_indistinguishable_witness :
    (ContactService.get dbEmpty alice 1).result =
      (ContactService.get dbBobOnly alice 1).result ∧
    (ContactService.get dbEmpty alice 1).result = Except.error contactNotFound ∧
    (ContactService.remove dbEmpty alice 1).result =
      (ContactService.remove dbBobOnly alice 1).result ∧
    (ContactService.update dbEmpty alice sampleUpdateReq).result =
      (ContactService.update dbBobOnly alice sampleUpdateReq).result :=
  foreign_and_missing_indistinguishable dbEmpty dbBobOnly alice 1 sampleUpdateReq
    rfl (by decide) (by decide) (by decide)

/-- C9: the update workflow always targets the contactId path parameter:
the controller executes `request.id = contactId` before calling the
service, so two bodies differing only in their id field produce identical
outcomes, and the controller's outcome is the service's outcome on the
body with its id overwritten by the path parameter. -/
theorem controller_update_id_from_path (db : Db) (u : User) (cid : Nat)
    (req req2 : UpdateContactRequest)
    (hf : req.first_name = req2.first_name)
    (hl : req.last_name = req2.last_name)
    (he : req.email = req2.email)
    (hp : req.phone = req2.phone) :
    ContactController.update db u cid req = ContactController.update db u cid req2 ∧
    (ContactController.update db u cid req).result =
      (ContactService.update db u { req with id := cid }).result.map (fun a => ⟨a⟩) := by
  have hEq : ({ req with id := cid } : UpdateContactRequest) = { req2 with id := cid } := by
    cases req
    cases req2
    dsimp only at hf hl he hp
    subst hf; subst hl; subst he; subst hp
    rfl
  constructor
  · unfold ContactController.update
    rw [hEq]
  · rfl

/-- C9 witness: a body carrying id 99 and the same body carrying id 1
behave identically under PUT with path parameter 1, and the path
parameter is what reaches the service. -/
theorem controller_update_id_from_path_witness :
    ContactController.update dbAliceOnly alice 1 { sampleUpdateReq with id := 99 } =
      ContactController.update dbAliceOnly alice 1 sampleUpdateReq ∧
    (ContactController.update dbAliceOnly alice 1 { sampleUpdateReq with id := 99 }).result =
      (ContactService.update dbAliceOnly alice
        { { sampleUpdateReq with id := 99 } with id := 1 }).result.map (fun a => ⟨a⟩) :=
  controller_update_id_from_path dbAliceOnly alice 1 { sampleUpdateReq with id := 99 }
    sampleUpdateReq rfl rfl rfl rfl

/-- C10: the username column of a stored contact is never rewritten:
create keeps every existing row and only adds a row owned by the
authenticated user, update preserves each row's username pointwise (its
data payload carries no username), and remove only removes rows, leaving
every surviving row untouched. -/
theorem username_column_never_rewritten (db : Db) (u : User)
    (req : CreateContactRequest) (ureq : UpdateContactRequest) (i : Nat) (n : Nat) :
    (∀ c ∈ db.rows, c ∈ (ContactService.create db u req).db.rows) ∧
    (∀ c ∈ (ContactService.create db u req).db.rows,
      c ∈ db.rows ∨ c.username = u.username) ∧
    ((ContactService.update db u ureq).db.rows.length = db.rows.length) ∧
    (((ContactService.update db u ureq).db.rows[n]?).map Contact.username =
      (db.rows[n]?).map Contact.username) ∧
    (∀ c ∈ (ContactService.remove db u i).db.rows, c ∈ db.rows) := by
  refine ⟨?_, ?_, ?_, ?_, ?_⟩
  · intro c hc
    rcases create_result_cases db u req with ⟨_, hop⟩ | ⟨_, hop⟩ <;> rw [hop]
    · exact hc
    · exact List.mem_append_left _ hc
  · intro c hc
    rcases create_result_cases db u req with ⟨_, hop⟩ | ⟨_, hop⟩ <;> rw [hop] at hc
    · exact Or.inl hc
    · rcases List.mem_append.mp hc with hmem | hnew
      · exact Or.inl hmem
      · rcases List.mem_singleton.mp hnew with rfl
        exact Or.inr rfl
  · rcases update_result_cases db u ureq with ⟨_, hop⟩ | ⟨_, _, hop⟩ | ⟨c, _, _, _, _, _, hop⟩
    · simp [hop]
    · simp [hop]
    · simp [hop, Db.updateWhere]
  · rcases update_result_cases db u ureq with ⟨_, hop⟩ | ⟨_, _, hop⟩ | ⟨c, _, _, _, _, _, hop⟩
    · simp [hop]
    · simp [hop]
    · simp only [hop, Db.updateWhere, List.getElem?_map]
      cases hrow : db.rows[n]? with
      | none => rfl
      | some r =>
        by_cases hif : r.id = c.id ∧ r.username = c.username <;>
          simp [hif, applyUpdateData_username]
  · intro c hc
    rcases remove_result_cases db u i with ⟨_, hop⟩ | ⟨d, _, _, _, _, hop⟩ <;> rw [hop] at hc
    · exact hc
    · exact (List.mem_filter.mp hc).1
